import Mathlib

/-!
Verification of the SalesDashboard task/notification subsystem.

This file gives a shallow embedding, in Lean 4, of the authorization-scoping,
task-recurrence, task-status and notification fan-out logic of the repository
(`auth.py`, `api.py`, `models.py`), and proves or refutes the frozen claims
about it.  Every definition is translated from the Python source; database
queries become explicit passes over lists, `current_user` becomes an explicit
`User` argument, and Python exceptions become explicit result values.
-/

namespace SalesDashboard

/-! ## Calendar dates

Python `datetime.date` values, modelled as (year, month, day) triples with the
usual Gregorian validity predicate and lexicographic order (this is exactly the
order `datetime.date` implements for valid dates). -/

structure Date where
  year : Int
  month : Nat
  day : Nat
deriving DecidableEq, Repr

def isLeapYear (y : Int) : Bool :=
  (y % 4 == 0 && y % 100 != 0) || (y % 400 == 0)

def daysInMonth (y : Int) (m : Nat) : Nat :=
  if m = 2 then (if isLeapYear y then 29 else 28)
  else if m = 4 ∨ m = 6 ∨ m = 9 ∨ m = 11 then 30
  else 31

def Date.isValid (d : Date) : Bool :=
  1 ≤ d.month && d.month ≤ 12 && 1 ≤ d.day && d.day ≤ daysInMonth d.year d.month

/-- Strict order on dates: lexicographic on (year, month, day), as implemented
by `datetime.date.__lt__`. -/
def Date.blt (a b : Date) : Bool :=
  a.year < b.year ||
    (a.year == b.year && (a.month < b.month ||
      (a.month == b.month && a.day < b.day)))

/-- Days since 1970-01-01 (Gregorian civil calendar). -/
def Date.daysFromCivil (d : Date) : Int :=
  let y : Int := if d.month ≤ 2 then d.year - 1 else d.year
  let era : Int := (if 0 ≤ y then y else y - 399) / 400
  let yoe : Int := y - era * 400
  let m : Int := d.month
  let doy : Int := (153 * (m + (if 2 < m then -3 else 9)) + 2) / 5 + (d.day : Int) - 1
  let doe : Int := yoe * 365 + yoe / 4 - yoe / 100 + doy
  era * 146097 + doe - 719468

/-- Embeds `date.weekday()`: 0 = Monday … 6 = Sunday (1970-01-01 was a Thursday = 3). -/
def Date.weekday (d : Date) : Int :=
  (d.daysFromCivil + 3) % 7

/-- Python `datetime.datetime`: a calendar date plus a time of day
(seconds within the day suffice for this development). -/
structure DateTime where
  date : Date
  secondsOfDay : Nat
deriving DecidableEq, Repr

/-! The Python `datetime` module refuses to order a `date` against a `datetime`:
the comparison raises `TypeError` (cannot compare datetime.datetime to datetime.date).  We model dynamically-typed comparison operands and make the
raise explicit as an `Except` error, so that handlers that wrap comparisons in
`try/except` can be embedded faithfully. -/

inductive PyTimeVal where
  | pydate (d : Date)
  | pydatetime (dt : DateTime)
deriving DecidableEq, Repr

/-- Python `<` on date/datetime values.  Mixed date-vs-datetime comparison
raises `TypeError`. -/
def pyLt : PyTimeVal → PyTimeVal → Except String Bool
  | .pydate a, .pydate b => .ok (Date.blt a b)
  | .pydatetime a, .pydatetime b =>
      .ok (Date.blt a.date b.date ||
        (a.date == b.date && a.secondsOfDay < b.secondsOfDay))
  | _, _ => .error "TypeError: cannot compare datetime.datetime to datetime.date"

/-! ## Data model (`models.py`) -/

/-- The Python `str.lower()` call, as applied to the status and recurrence
fields (ASCII keywords), mapped over the characters of the string. -/
def asciiLower (s : String) : String := ⟨s.data.map Char.toLower⟩

/-- Embeds `UserRole` enum from `models.py`. -/
inductive UserRole where
  | admin
  | representative
  | user
  | department_manager
deriving DecidableEq, Repr

/-- A row of the `User` table (the fields the task subsystem reads). -/
structure User where
  id : Nat
  role : UserRole
  department_id : Option Nat
  is_active : Bool
deriving DecidableEq, Repr

def User.is_admin (u : User) : Bool := u.role == .admin

def User.is_department_manager (u : User) : Bool := u.role == .department_manager

/-- A row of the `Task` table.  `created_at_date` is `task.created_at.date()`
(the only use the recurrence evaluator makes of `created_at`); it is optional
because the code guards `if task.created_at else None`. -/
structure Task where
  id : Nat
  title : String
  department_id : Option Nat
  assigned_by_id : Option Nat
  assigned_to_id : Option Nat
  created_by_id : Nat
  status : String
  priority : String
  start_date : Option Date
  due_date : Option Date
  is_recurring : Bool
  recurrence : String
  created_at_date : Option Date
deriving DecidableEq, Repr

/-- A row of the `Notification` table. -/
structure Notification where
  id : Nat
  to_user_id : Nat
  created_by_id : Option Nat
  title : String
  message : String
  url : Option String
  entity_type : Option String
  entity_id : Option Nat
  is_read : Bool
  read_at : Option DateTime
deriving DecidableEq, Repr

/-- A row of the `Target` table (the numeric value of `target_amount` plays no role
in the verified logic; Python floats are modelled as rationals). -/
structure Target where
  user_id : Nat
  year : Int
  month : Int
  target_amount : Rat
deriving DecidableEq, Repr

/-! ## Scope resolver (`auth.py`, `get_scoped_user_ids` / `is_user_in_scope`)

`User.query` becomes an explicit list of user rows `db`; `current_user`
becomes the explicit argument `cu` (always an authenticated user here, since
every caller sits behind `@login_required`). -/

/-- Embeds `get_scoped_user_ids` (auth.py:76-91).  `none` is the Python `None`,
meaning "no restriction". -/
def get_scoped_user_ids (db : List User) (cu : User) : Option (List Nat) :=
  if cu.is_admin then none
  else if cu.is_department_manager then
    match cu.department_id with
    | none => some []
    | some d => some ((db.filter (fun u => u.department_id == some d)).map (·.id))
  else some [cu.id]

/-- Embeds `is_user_in_scope` (auth.py:93-98). -/
def is_user_in_scope (db : List User) (cu : User) (user_id : Nat) : Bool :=
  match get_scoped_user_ids db cu with
  | none => true
  | some ids => user_id ∈ ids

/-! ## Recurrence evaluator (`api.py`, `task_occurs_on`, lines 39-72) -/

/-- The Python membership test on line api.py:52, which treats the stored
recurrence as "none" when it is falsy (empty) and recognises the values
"none", "" and None as non-recurring. -/
def recurrenceIsNone (t : Task) : Bool :=
  let r := if t.recurrence == "" then "none" else t.recurrence
  r == "none" || r == ""

/-- Embeds `anchor = task.start_date or task.due_date or (task.created_at.date() if
task.created_at else None)` (api.py:56). -/
def taskAnchor (t : Task) : Option Date :=
  match t.start_date with
  | some d => some d
  | none =>
    match t.due_date with
    | some d => some d
    | none => t.created_at_date

/-- Embeds `task_occurs_on` (api.py:39-72). -/
def task_occurs_on (t : Task) (day : Date) : Bool :=
  if !t.is_recurring || recurrenceIsNone t then
    t.start_date == some day || t.due_date == some day
  else
    match taskAnchor t with
    | none => false
    | some anchor =>
      if Date.blt day anchor then false
      else if (match t.due_date with
               | some dd => Date.blt dd day
               | none => false) then false
      else
        let pattern := asciiLower t.recurrence
        if pattern == "daily" then true
        else if pattern == "weekly" then day.weekday == anchor.weekday
        else if pattern == "monthly" then day.day == anchor.day
        else if pattern == "yearly" then day.month == anchor.month && day.day == anchor.day
        else false

/-! ## Handler results

Flask handlers return `(jsonify(...), status)` pairs; we record the HTTP
status, the `success` flag and the `error` string. -/

structure HandlerResult where
  httpStatus : Nat
  success : Bool
  error : Option String
deriving DecidableEq, Repr

def ok200 : HandlerResult := ⟨200, true, none⟩

def httpErr (code : Nat) (msg : String) : HandlerResult := ⟨code, false, some msg⟩

/-- Python truthiness of an optional integer: `None` and `0` are falsy. -/
def optNatTruthy : Option Nat → Bool
  | none => false
  | some n => n != 0

/-! ## Task access check and direct update (`api.py`, `get_or_update_task`) -/

/-- Embeds `task.assigned_to_id or current_user.id` (api.py:731): Python `or`
falls through on `None` and on `0`. -/
def assignedOrSelf (t : Task) (cu : User) : Nat :=
  match t.assigned_to_id with
  | some a => if a == 0 then cu.id else a
  | none => cu.id

/-- The access check shared by `get_or_update_task` (api.py:731) and
`task_comments` (api.py:920). -/
def taskAccessOk (db : List User) (cu : User) (t : Task) : Bool :=
  cu.is_admin || is_user_in_scope db cu (assignedOrSelf t cu) ||
    is_user_in_scope db cu t.created_by_id

/-- The `PUT /api/tasks/{id}` path of `get_or_update_task` (api.py:726-801)
for a payload containing exactly the key `status`. -/
def update_task_status (db : List User) (cu : User) (t : Task)
    (newStatus : String) : Task × HandlerResult :=
  if !taskAccessOk db cu t then
    (t, httpErr 403 "Göreve erişim yetkiniz yok")
  else if cu.is_admin || cu.is_department_manager then
    ({t with status := newStatus}, ok200)
  else if t.assigned_to_id != some cu.id && t.created_by_id != cu.id then
    (t, httpErr 403 "Görevi güncelleme yetkiniz yok")
  else if !(newStatus == "in_progress" || newStatus == "completed" ||
      newStatus == "cancelled") then
    (t, httpErr 400 "Geçersiz durum güncellemesi")
  else
    ({t with status := newStatus}, ok200)

/-! ## Approve and deliver (`api.py`, `approve_task` / `deliver_task`) -/

/-- Embeds `if not task.assigned_to_id or task.assigned_to_id != current_user.id`
(api.py:811 and api.py:862). -/
def notTheAssignee (t : Task) (cu : User) : Bool :=
  !optNatTruthy t.assigned_to_id || t.assigned_to_id != some cu.id

/-- Embeds `approve_task` (api.py:803-822), up to the status mutation; the
notification fan-out is modelled separately by `taskEventRecipients`. -/
def approve_task (t : Task) (cu : User) : Task × HandlerResult :=
  if notTheAssignee t cu then
    (t, httpErr 403 "Bu görevi onaylama yetkiniz yok")
  else if !(asciiLower t.status == "pending" || asciiLower t.status == "requested") then
    (t, httpErr 400 "Bu görev bu durumda onaylanamaz")
  else
    ({t with status := "in_progress"}, ok200)

/-- The overdue check of `deliver_task` (api.py:868-876): the whole check is
wrapped in `try: ... except Exception: pass`, and `task.due_date` is a
`datetime.date` (the `Task.due_date` column is `db.Date`) while
`now = datetime.utcnow()` is a `datetime.datetime`, so `pyLt` here is the
mixed date/datetime comparison. -/
def deliverOverdueCheck (t : Task) (now : DateTime) : Option String :=
  match t.due_date with
  | none => none
  | some dd =>
    match pyLt (.pydate dd) (.pydatetime now) with
    | .ok true => some "Görev geciktiği için teslim edilemez"
    | .ok false => none
    | .error _ => none

/-- Embeds `deliver_task` (api.py:856-883), up to the status mutation. -/
def deliver_task (t : Task) (cu : User) (now : DateTime) : Task × HandlerResult :=
  if notTheAssignee t cu then
    (t, httpErr 403 "Bu görevi teslim etme yetkiniz yok")
  else if !(asciiLower t.status == "in_progress" || asciiLower t.status == "pending" ||
      asciiLower t.status == "requested") then
    (t, httpErr 400 "Bu görev bu durumda teslim edilemez")
  else
    match deliverOverdueCheck t now with
    | some e => (t, httpErr 400 e)
    | none => ({t with status := "completed"}, ok200)

/-! ## Notification fan-out recipient sets

The approve / deliver / comment / read-receipt handlers build a Python
`set()` of user ids by successive `add` calls and finish with
`discard(current_user.id)`.  A Python set of ids is modelled as a
duplicate-free `List Nat` built with `List.insert`. -/

/-- A sequence of `set.add` calls. -/
def pySetAddAll (s : List Nat) (xs : List Nat) : List Nat :=
  xs.foldl (fun acc x => acc.insert x) s

/-- Embeds `User.query.filter_by(role=DEPARTMENT_MANAGER, department_id=d).first()`. -/
def firstDeptManager (db : List User) (dept : Option Nat) : Option User :=
  if optNatTruthy dept then
    db.find? (fun u => u.role == .department_manager && u.department_id == dept)
  else none

/-- Ids of all Admin rows, in table order. -/
def adminIds (db : List User) : List Nat :=
  (db.filter (fun u => u.role == .admin)).map (·.id)

/-- The `notify_user_ids` set of the approve and deliver fan-outs just before
`discard(current_user.id)` (api.py:826-836 and api.py:887-896 — the two code
blocks are identical). -/
def taskEventRecipientPool (db : List User) (t : Task) : List Nat :=
  let s : List Nat := []
  let s := if t.created_by_id != 0 then s.insert t.created_by_id else s
  let s := match firstDeptManager db t.department_id with
           | some dm => s.insert dm.id
           | none => s
  pySetAddAll s (adminIds db)

/-- Recipient set of the approve and deliver fan-outs, after
`notify_user_ids.discard(current_user.id)` (api.py:838 / api.py:897). -/
def taskEventRecipients (db : List User) (t : Task) (actorId : Nat) : List Nat :=
  (taskEventRecipientPool db t).filter (fun x => x != actorId)

/-- The `notify_user_ids` set of the comment fan-out before the discard
(api.py:946-957): like `taskEventRecipientPool` but seeded with the assignee
as well. -/
def commentRecipientPool (db : List User) (t : Task) : List Nat :=
  let s : List Nat := []
  let s := if optNatTruthy t.assigned_to_id then s.insert (t.assigned_to_id.getD 0) else s
  let s := if t.created_by_id != 0 then s.insert t.created_by_id else s
  let s := match firstDeptManager db t.department_id with
           | some dm => s.insert dm.id
           | none => s
  pySetAddAll s (adminIds db)

/-- Recipient set of the comment fan-out (api.py:946-959). -/
def commentRecipients (db : List User) (t : Task) (actorId : Nat) : List Nat :=
  (commentRecipientPool db t).filter (fun x => x != actorId)

/-- The `notify_user_ids` set of the read-receipt fan-out in
`mark_notification_read` before the discard (api.py:1058-1066): the
department manager of the viewer and all admins. -/
def readReceiptPool (db : List User) (cu : User) : List Nat :=
  let s : List Nat := []
  let s := match firstDeptManager db cu.department_id with
           | some dm => s.insert dm.id
           | none => s
  pySetAddAll s (adminIds db)

/-- Recipient set of the read-receipt fan-out (api.py:1058-1068): the pool
minus the viewer. -/
def readReceiptRecipients (db : List User) (cu : User) : List Nat :=
  (readReceiptPool db cu).filter (fun x => x != cu.id)

/-- Assignee notifications of the `create_task` fan-out (api.py:682-692):
one per created task with a truthy assignee, with NO check against the
actor. -/
def createAssigneeNotifIds (tasks : List Task) : List Nat :=
  tasks.filterMap (fun t => if optNatTruthy t.assigned_to_id then t.assigned_to_id else none)

/-- Manager and admin notifications of the `create_task` fan-out
(api.py:693-718): the department manager of the creator (skipped when the
manager is the actor), then every admin other than the actor. -/
def createManagerAdminNotifIds (db : List User) (cu : User) : List Nat :=
  (match firstDeptManager db cu.department_id with
   | some m => if m.id != cu.id then [m.id] else []
   | none => []) ++
  ((db.filter (fun u => u.role == .admin && u.id != cu.id)).map (·.id))

/-- Recipient ids, in emission order, of the whole `create_task` fan-out
(api.py:679-718).  Unlike the other fan-outs this one is NOT built as a
set. -/
def createTaskNotifRecipients (db : List User) (cu : User)
    (tasks : List Task) : List Nat :=
  createAssigneeNotifIds tasks ++ createManagerAdminNotifIds db cu

/-! ## Mark-notification-read (`api.py`, `mark_notification_read`) -/

/-- Stored notifications plus the next fresh primary key. -/
structure NotifState where
  notifications : List Notification
  nextId : Nat
deriving DecidableEq, Repr

/-- One read-receipt row as built in api.py:1072-1081 (the display
name inside the message text is display-only and elided here). -/
def mkReadReceipt (cu : User) (src : Notification) (rid uid : Nat) : Notification :=
  { id := rid
    to_user_id := uid
    created_by_id := some cu.id
    title := "Bildirim Görüntülendi"
    message :=
      if src.entity_type == some "task" && optNatTruthy src.entity_id then
        "görev bildirimi görüntülendi"
      else
        "bir bildirimi görüntüledi"
    url := some (match src.url with
                 | some u => if u == "" then "/tasks" else u
                 | none => "/tasks")
    entity_type := src.entity_type
    entity_id := src.entity_id
    is_read := false
    read_at := none }

/-- Embeds `mark_notification_read` (api.py:1048-1085). -/
def mark_notification_read (db : List User) (st : NotifState) (cu : User)
    (notif_id : Nat) (now : DateTime) : NotifState × HandlerResult :=
  match st.notifications.find? (fun n => n.id == notif_id && n.to_user_id == cu.id) with
  | none => (st, httpErr 404 "Not Found")
  | some notif =>
    let updated := { notif with is_read := true, read_at := some now }
    let base := st.notifications.map
      (fun n => if n.id == notif_id && n.to_user_id == cu.id then updated else n)
    let recips := readReceiptRecipients db cu
    let receipts := recips.enum.map (fun p => mkReadReceipt cu notif (st.nextId + p.1) p.2)
    (⟨base ++ receipts, st.nextId + receipts.length⟩, ok200)

/-! ## Target creation (`api.py`, `create_target`) -/

/-- The JSON body of `POST /api/targets`; `data.get(field)` yields `None` for
a missing key, and the handler check `if not data.get(field)` also rejects falsy
(zero) values. -/
structure TargetPayload where
  user_id : Option Nat
  year : Option Int
  month : Option Int
  target_amount : Option Rat
deriving DecidableEq, Repr

def optIntTruthy : Option Int → Bool
  | none => false
  | some n => n != 0

def optRatTruthy : Option Rat → Bool
  | none => false
  | some q => q != 0

/-- The duplicate filter of api.py:1130-1134: an existing `Target` row for the
same (user, year, month) tuple. -/
def targetDupPred (p : TargetPayload) (t : Target) : Bool :=
  some t.user_id == p.user_id && some t.year == p.year && some t.month == p.month

/-- The new `Target` row built in api.py:1139-1144 (fields have passed the
truthiness guard, so the defaults are never used). -/
def newTargetOf (p : TargetPayload) : Target :=
  ⟨p.user_id.getD 0, (p.year).getD 0, (p.month).getD 0, (p.target_amount).getD 0⟩

/-- Embeds `create_target` (api.py:1111-1151), including its
`@admin_or_department_manager_required` decorator (auth.py:53-62). -/
def create_target (db : List User) (targets : List Target) (cu : User)
    (p : TargetPayload) : List Target × HandlerResult :=
  if !(cu.is_admin || cu.is_department_manager) then
    (targets, httpErr 403 "Admin veya departman yöneticisi yetkisi gerekli")
  else if !optNatTruthy p.user_id then
    (targets, httpErr 400 "user_id alanı gerekli")
  else if !optIntTruthy p.year then
    (targets, httpErr 400 "year alanı gerekli")
  else if !optIntTruthy p.month then
    (targets, httpErr 400 "month alanı gerekli")
  else if !optRatTruthy p.target_amount then
    (targets, httpErr 400 "target_amount alanı gerekli")
  else
    match db.find? (fun u => some u.id == p.user_id) with
    | none => (targets, httpErr 404 "Kullanıcı bulunamadı")
    | some user =>
      if !is_user_in_scope db cu user.id then
        (targets, httpErr 403 "Bu kullanıcıya hedef atamak için yetkiniz yok")
      else if (targets.find? (targetDupPred p)).isSome then
        (targets, httpErr 400 "Bu ay için zaten hedef tanımlanmış")
      else
        (targets ++ [newTargetOf p], ⟨201, true, none⟩)

/-! ## Task creation (`api.py`, `create_task`, lines 599-724)

The payload fields `start_date` / `due_date` arrive as ISO strings and go through
`datetime.strptime` with an ISO day format; they are modelled post-parse as
`Option Date`. -/

structure TaskCreatePayload where
  title : String
  assigned_to_id : Option Nat
  assigned_to_ids : List Nat
  due_date : Option Date
  start_date : Option Date
  priority : String
  is_recurring : Bool
  recurrence : String
deriving DecidableEq, Repr

/-- Embeds `build_and_persist_task` (api.py:635-662).  `today` is the calendar date
of the `created_at` default of the row. -/
def build_and_persist_task (db : List User) (cu : User) (p : TaskCreatePayload)
    (taskId : Nat) (today : Date) (assignee_id : Option Nat) :
    Except String Task :=
  let mk : Task :=
    { id := taskId
      title := p.title
      department_id := cu.department_id
      assigned_by_id := some cu.id
      assigned_to_id := assignee_id
      created_by_id := cu.id
      status := "pending"
      priority := p.priority
      start_date := p.start_date
      due_date := p.due_date
      is_recurring := p.is_recurring
      recurrence := p.recurrence
      created_at_date := some today }
  if optNatTruthy assignee_id then
    match db.find? (fun u => some u.id == assignee_id) with
    | none => .error "Atanacak kullanıcı bulunamadı"
    | some _ => .ok mk
  else
    .ok mk

/-- The all-or-nothing creation loop of `create_task` (api.py:664-671): the
first failure rolls the transaction back, so no task survives. -/
def createTasksLoop (db : List User) (cu : User) (p : TaskCreatePayload)
    (today : Date) : List (Option Nat) → Nat → Except String (List Task)
  | [], _ => .ok []
  | tid :: rest, nid =>
    match build_and_persist_task db cu p nid today tid with
    | .error e => .error e
    | .ok t =>
      match createTasksLoop db cu p today rest (nid + 1) with
      | .error e => .error e
      | .ok ts => .ok (t :: ts)

/-- Embeds `create_task` (api.py:599-724), returning the persisted tasks (empty on
rollback) and the handler result. -/
def create_task (db : List User) (cu : User) (p : TaskCreatePayload)
    (today : Date) (nextId : Nat) : List Task × HandlerResult :=
  if p.title == "" then
    ([], httpErr 400 "Başlık zorunludur")
  else
    let targets : List (Option Nat) :=
      if p.assigned_to_ids != [] then p.assigned_to_ids.map some
      else [p.assigned_to_id]
    match createTasksLoop db cu p today targets nextId with
    | .error e => ([], httpErr 400 e)
    | .ok ts => (ts, ⟨201, true, none⟩)

/-! ## Shared helper lemmas -/

theorem not_mem_filter_ne_self (l : List Nat) (a : Nat) :
    a ∉ l.filter (fun x => x != a) := by
  intro h
  have h2 := (List.mem_filter.mp h).2
  simp at h2

theorem nodup_pySetAddAll (xs : List Nat) (s : List Nat) (h : s.Nodup) :
    (pySetAddAll s xs).Nodup := by
  induction xs generalizing s with
  | nil => exact h
  | cons x xs ih => exact ih _ h.insert

theorem taskEventRecipientPool_nodup (db : List User) (t : Task) :
    (taskEventRecipientPool db t).Nodup := by
  unfold taskEventRecipientPool
  apply nodup_pySetAddAll
  split
  · split
    · exact List.Nodup.insert (List.nodup_cons.mpr ⟨List.not_mem_nil _, List.nodup_nil⟩)
    · exact List.nodup_cons.mpr ⟨List.not_mem_nil _, List.nodup_nil⟩
  · split
    · exact List.Nodup.insert List.nodup_nil
    · exact List.nodup_nil

theorem commentRecipientPool_nodup (db : List User) (t : Task) :
    (commentRecipientPool db t).Nodup := by
  unfold commentRecipientPool
  apply nodup_pySetAddAll
  split <;> split <;> split <;>
    first
      | exact List.nodup_nil
      | exact List.Nodup.insert List.nodup_nil
      | exact List.Nodup.insert (List.Nodup.insert List.nodup_nil)
      | exact List.Nodup.insert (List.Nodup.insert (List.Nodup.insert List.nodup_nil))

theorem readReceiptPool_nodup (db : List User) (cu : User) :
    (readReceiptPool db cu).Nodup := by
  unfold readReceiptPool
  apply nodup_pySetAddAll
  split
  · exact List.Nodup.insert List.nodup_nil
  · exact List.nodup_nil

/-! ## Claim C8 -/

/-- C8: for every task with `is_recurring` false, or whose recurrence is
"none" or empty, and for every calendar day, `task_occurs_on` returns true
iff the day equals the start date or the due date of the task; a
non-recurring task with neither date set never occurs on any day. -/
theorem c8_nonrecurring_occurs_iff (t : Task) (day : Date)
    (h : t.is_recurring = false ∨ recurrenceIsNone t = true) :
    (task_occurs_on t day = true ↔
      (t.start_date = some day ∨ t.due_date = some day)) ∧
    (t.start_date = none → t.due_date = none → task_occurs_on t day = false) := by
  have hcond : (!t.is_recurring || recurrenceIsNone t) = true := by
    rcases h with h | h <;> simp [h]
  refine ⟨?_, ?_⟩
  · simp [task_occurs_on, hcond]
  · intro h1 h2
    simp [task_occurs_on, hcond, h1, h2]

/-- Witness for C8 at the spec example: a non-recurring task with
start 2024-03-01 and no due date occurs on 2024-03-01. -/
theorem c8_nonrecurring_occurs_iff_witness :
    task_occurs_on
      { id := 1, title := "t", department_id := none, assigned_by_id := none,
        assigned_to_id := none, created_by_id := 1, status := "pending",
        priority := "normal", start_date := some ⟨2024, 3, 1⟩, due_date := none,
        is_recurring := false, recurrence := "none",
        created_at_date := some ⟨2024, 2, 1⟩ } ⟨2024, 3, 1⟩ = true :=
  (c8_nonrecurring_occurs_iff _ _ (Or.inl rfl)).1.mpr (Or.inl rfl)

/-! ## Claim C7 -/

/-- C7: a recurring monthly task whose anchor falls on the 31st never occurs
on any valid day of a month with fewer than 31 days, bounds notwithstanding:
there is no fallback to the nearest existing day of the month. -/
theorem c7_monthly_day31_short_month (t : Task) (day a : Date)
    (hrec : t.is_recurring = true)
    (hpat : asciiLower t.recurrence = "monthly")
    (hanchor : taskAnchor t = some a)
    (h31 : a.day = 31)
    (hvalid : day.isValid = true)
    (hshort : daysInMonth day.year day.month < 31) :
    task_occurs_on t day = false := by
  have hn1 : t.recurrence ≠ "none" := by
    intro hcon; rw [hcon] at hpat; exact absurd hpat (by decide)
  have hn2 : t.recurrence ≠ "" := by
    intro hcon; rw [hcon] at hpat; exact absurd hpat (by decide)
  have hne : recurrenceIsNone t = false := by
    simp [recurrenceIsNone, hn1, hn2]
  have hday : day.day < 31 := by
    have hv := hvalid
    simp only [Date.isValid, Bool.and_eq_true, decide_eq_true_eq] at hv
    exact Nat.lt_of_le_of_lt hv.2 hshort
  have hdayne : (day.day == a.day) = false := by
    rw [h31]
    exact beq_eq_false_iff_ne.mpr (Nat.ne_of_lt hday)
  unfold task_occurs_on
  rw [hrec, hne, hanchor]
  simp only [Bool.not_true, Bool.or_false, hpat]
  split
  · next hc => simp at hc
  · split
    · rfl
    · split
      · rfl
      · simp [hdayne]

/-- Witness for C7: a monthly task anchored 2024-01-31 does not occur on
2024-04-30 even though that day is inside the [anchor, due] bounds. -/
theorem c7_monthly_day31_short_month_witness :
    task_occurs_on
      { id := 2, title := "m", department_id := none, assigned_by_id := none,
        assigned_to_id := none, created_by_id := 1, status := "pending",
        priority := "normal", start_date := some ⟨2024, 1, 31⟩,
        due_date := some ⟨2024, 12, 31⟩, is_recurring := true,
        recurrence := "monthly", created_at_date := some ⟨2024, 1, 1⟩ }
      ⟨2024, 4, 30⟩ = false :=
  c7_monthly_day31_short_month _ ⟨2024, 4, 30⟩ ⟨2024, 1, 31⟩ rfl (by decide)
    rfl rfl (by decide) (by decide)

/-! ## Claim C1 -/

/-- C1: scope resolution.  Admin resolves to the unrestricted marker (`none`)
and is in scope of every target; a DepartmentManager with a department
resolves to exactly the ids of the users of that department (themselves
included); a DepartmentManager without a department resolves to the empty
set; a plain User resolves to their own singleton; and `is_user_in_scope`
holds iff the scope is unrestricted or the target id is a member. -/
theorem c1_scope_resolution (db : List User) (cu : User) (uid d : Nat) :
    (cu.role = .admin →
      get_scoped_user_ids db cu = none ∧ is_user_in_scope db cu uid = true) ∧
    (cu.role = .department_manager → cu.department_id = some d →
      ∃ ids, get_scoped_user_ids db cu = some ids ∧
        (∀ v, v ∈ ids ↔ ∃ u ∈ db, u.department_id = some d ∧ u.id = v) ∧
        (cu ∈ db → cu.id ∈ ids)) ∧
    (cu.role = .department_manager → cu.department_id = none →
      get_scoped_user_ids db cu = some []) ∧
    (cu.role = .user → get_scoped_user_ids db cu = some [cu.id]) ∧
    (is_user_in_scope db cu uid = true ↔
      (get_scoped_user_ids db cu = none ∨
        ∃ ids, get_scoped_user_ids db cu = some ids ∧ uid ∈ ids)) := by
  refine ⟨?_, ?_, ?_, ?_, ?_⟩
  · intro hr
    refine ⟨?_, ?_⟩
    · simp [get_scoped_user_ids, User.is_admin, hr]
    · simp [is_user_in_scope, get_scoped_user_ids, User.is_admin, hr]
  · intro hr hd
    have hadm : cu.is_admin = false := by simp [User.is_admin, hr]
    have hdm : cu.is_department_manager = true := by
      simp [User.is_department_manager, hr]
    refine ⟨(db.filter (fun u => u.department_id == some d)).map (·.id),
      ?_, ?_, ?_⟩
    · simp [get_scoped_user_ids, hadm, hdm, hd]
    · intro v
      simp only [List.mem_map, List.mem_filter, beq_iff_eq]
      constructor
      · rintro ⟨u, ⟨hu, hdep⟩, hid⟩
        exact ⟨u, hu, hdep, hid⟩
      · rintro ⟨u, hu, hdep, hid⟩
        exact ⟨u, ⟨hu, hdep⟩, hid⟩
    · intro hmem
      exact List.mem_map.mpr ⟨cu, List.mem_filter.mpr ⟨hmem, by simp [hd]⟩, rfl⟩
  · intro hr hd
    simp [get_scoped_user_ids, User.is_admin, User.is_department_manager, hr, hd]
  · intro hr
    simp [get_scoped_user_ids, User.is_admin, User.is_department_manager, hr]
  · cases h : get_scoped_user_ids db cu with
    | none => simp [is_user_in_scope, h]
    | some ids => simp [is_user_in_scope, h]

/-- Witness for C1: an admin over a two-user table has the unrestricted scope
and an arbitrary target id 99 in scope. -/
theorem c1_scope_resolution_witness :
    get_scoped_user_ids
      [⟨1, .admin, none, true⟩, ⟨2, .user, some 4, true⟩]
      ⟨1, .admin, none, true⟩ = none ∧
    is_user_in_scope
      [⟨1, .admin, none, true⟩, ⟨2, .user, some 4, true⟩]
      ⟨1, .admin, none, true⟩ 99 = true :=
  (c1_scope_resolution
    [⟨1, .admin, none, true⟩, ⟨2, .user, some 4, true⟩]
    ⟨1, .admin, none, true⟩ 99 0).1 rfl

/-! ## Claim C9 -/

theorem dm_no_department_scope_empty (db : List User) (cu : User) (uid : Nat)
    (hr : cu.role = .department_manager) (hd : cu.department_id = none) :
    is_user_in_scope db cu uid = false := by
  simp [is_user_in_scope, get_scoped_user_ids, User.is_admin,
    User.is_department_manager, hr, hd]

theorem self_in_scope_unless_dm_no_dept (db : List User) (cu : User)
    (hmem : cu ∈ db)
    (h : ¬(cu.role = .department_manager ∧ cu.department_id = none)) :
    is_user_in_scope db cu cu.id = true := by
  cases hr : cu.role with
  | admin =>
    simp [is_user_in_scope, get_scoped_user_ids, User.is_admin, hr]
  | user =>
    simp [is_user_in_scope, get_scoped_user_ids, User.is_admin,
      User.is_department_manager, hr]
  | representative =>
    simp [is_user_in_scope, get_scoped_user_ids, User.is_admin,
      User.is_department_manager, hr]
  | department_manager =>
    cases hd : cu.department_id with
    | none => exact absurd ⟨hr, hd⟩ h
    | some d =>
      have hin : cu.id ∈ (db.filter (fun u => u.department_id == some d)).map (·.id) :=
        List.mem_map.mpr ⟨cu, List.mem_filter.mpr ⟨hmem, by simp [hd]⟩, rfl⟩
      simp [is_user_in_scope, get_scoped_user_ids, User.is_admin,
        User.is_department_manager, hr, hd, hin]

/-- C9 (counterexample): the access check guarding task reads/updates and
comments does NOT pass for every principal when the task has no assignee — a
DepartmentManager without a department is denied. -/
theorem c9_counterexample :
    taskAccessOk
      [⟨1, .department_manager, none, true⟩, ⟨2, .user, some 3, true⟩]
      ⟨1, .department_manager, none, true⟩
      { id := 5, title := "x", department_id := some 3,
        assigned_by_id := none, assigned_to_id := none, created_by_id := 2,
        status := "pending", priority := "normal", start_date := none,
        due_date := none, is_recurring := false, recurrence := "none",
        created_at_date := none } = false := by decide

/-- C9 (amended): for a task with no assignee, the access check degenerates
to a self-scope test and passes for every principal present in the user
table EXCEPT a DepartmentManager with no department, whose scope is empty
and who is therefore denied. -/
theorem c9_no_assignee_access (db : List User) (cu : User) (t : Task)
    (hmem : cu ∈ db) (hassign : t.assigned_to_id = none) :
    taskAccessOk db cu t = true ↔
      ¬(cu.role = .department_manager ∧ cu.department_id = none) := by
  have hself : assignedOrSelf t cu = cu.id := by
    simp [assignedOrSelf, hassign]
  constructor
  · intro hacc hcon
    obtain ⟨hr, hd⟩ := hcon
    have h1 := dm_no_department_scope_empty db cu cu.id hr hd
    have h2 := dm_no_department_scope_empty db cu t.created_by_id hr hd
    have hadm : cu.is_admin = false := by simp [User.is_admin, hr]
    unfold taskAccessOk at hacc
    rw [hself, hadm, h1, h2] at hacc
    simp at hacc
  · intro h
    have hs := self_in_scope_unless_dm_no_dept db cu hmem h
    unfold taskAccessOk
    rw [hself, hs]
    simp

/-- Witness for C9 (amended): a plain user passes the access check on an
assignee-less task created by someone else. -/
theorem c9_no_assignee_access_witness :
    taskAccessOk [⟨7, .user, none, true⟩] ⟨7, .user, none, true⟩
      { id := 5, title := "x", department_id := none, assigned_by_id := none,
        assigned_to_id := none, created_by_id := 2, status := "pending",
        priority := "normal", start_date := none, due_date := none,
        is_recurring := false, recurrence := "none",
        created_at_date := none } = true :=
  (c9_no_assignee_access [⟨7, .user, none, true⟩] ⟨7, .user, none, true⟩ _
    (by decide) rfl).mpr (by decide)

/-! ## Claim C2 -/

/-- C2 (code bug): delivering an overdue task is NOT rejected.  The guard at
api.py:868-876 compares the `date`-typed `due_date` column against
`datetime.utcnow()`; in Python that comparison raises `TypeError`, and the
surrounding `except Exception: pass` swallows it, so an assignee can deliver
a task whose due date lies strictly in the past and the status still becomes
"completed" with a success response. -/
theorem c2_overdue_deliver_dead_check :
    Date.blt ⟨2024, 1, 1⟩ ⟨2024, 6, 1⟩ = true ∧
    pyLt (.pydate ⟨2024, 1, 1⟩) (.pydatetime ⟨⟨2024, 6, 1⟩, 43200⟩)
      = .error "TypeError: cannot compare datetime.datetime to datetime.date" ∧
    deliver_task
      { id := 1, title := "t", department_id := none, assigned_by_id := some 2,
        assigned_to_id := some 7, created_by_id := 2, status := "in_progress",
        priority := "normal", start_date := none,
        due_date := some ⟨2024, 1, 1⟩, is_recurring := false,
        recurrence := "none", created_at_date := none }
      ⟨7, .user, none, true⟩ ⟨⟨2024, 6, 1⟩, 43200⟩
      = ({ id := 1, title := "t", department_id := none,
           assigned_by_id := some 2, assigned_to_id := some 7,
           created_by_id := 2, status := "completed", priority := "normal",
           start_date := none, due_date := some ⟨2024, 1, 1⟩,
           is_recurring := false, recurrence := "none",
           created_at_date := none }, ok200) :=
  ⟨by decide, rfl, by decide⟩

/-! ## Claim C5 -/

/-- C5 (counterexample): the direct-update path performs NO due-date check:
a plain user who is the assignee sets the status of a task whose due date
(2024-01-01) lies before the current date (2024-06-01) to "completed", and
the update is accepted. -/
theorem c5_counterexample :
    Date.blt ⟨2024, 1, 1⟩ ⟨2024, 6, 1⟩ = true ∧
    update_task_status [⟨7, .user, none, true⟩] ⟨7, .user, none, true⟩
      { id := 1, title := "t", department_id := none, assigned_by_id := some 2,
        assigned_to_id := some 7, created_by_id := 2, status := "in_progress",
        priority := "normal", start_date := none,
        due_date := some ⟨2024, 1, 1⟩, is_recurring := false,
        recurrence := "none", created_at_date := none } "completed"
      = ({ id := 1, title := "t", department_id := none,
           assigned_by_id := some 2, assigned_to_id := some 7,
           created_by_id := 2, status := "completed", priority := "normal",
           start_date := none, due_date := some ⟨2024, 1, 1⟩,
           is_recurring := false, recurrence := "none",
           created_at_date := none }, ok200) := by
  exact ⟨by decide, by decide⟩

/-- C5 (amended): a plain (non-Admin, non-DepartmentManager) assignee or
creator updating the status via direct update succeeds exactly when the new
status is one of in_progress / completed / cancelled, and is rejected with a
400 error (task unchanged) otherwise; no due-date condition is checked, so
"completed" is accepted even when the due date is past. -/
theorem c5_plain_status_update (db : List User) (cu : User) (t : Task)
    (s : String)
    (hrole : cu.role = .user ∨ cu.role = .representative)
    (hacc : taskAccessOk db cu t = true)
    (hown : t.assigned_to_id = some cu.id ∨ t.created_by_id = cu.id) :
    (s = "in_progress" ∨ s = "completed" ∨ s = "cancelled" →
      update_task_status db cu t s = ({ t with status := s }, ok200)) ∧
    (¬(s = "in_progress" ∨ s = "completed" ∨ s = "cancelled") →
      update_task_status db cu t s =
        (t, httpErr 400 "Geçersiz durum güncellemesi")) := by
  have hadm : cu.is_admin = false := by
    rcases hrole with h | h <;> simp [User.is_admin, h]
  have hdm : cu.is_department_manager = false := by
    rcases hrole with h | h <;> simp [User.is_department_manager, h]
  have hownb : (t.assigned_to_id != some cu.id && t.created_by_id != cu.id)
      = false := by
    rcases hown with h | h <;> simp [h]
  constructor
  · intro hs
    rcases hs with rfl | rfl | rfl <;>
      simp [update_task_status, hacc, hadm, hdm, hownb]
  · intro hs
    push_neg at hs
    obtain ⟨h1, h2, h3⟩ := hs
    simp [update_task_status, hacc, hadm, hdm, hownb, h1, h2, h3]

/-- Witness for C5 (amended), at the spec §8 example: a plain assignee
attempting to set status "pending" is rejected and the task is unchanged. -/
theorem c5_plain_status_update_witness :
    update_task_status [⟨7, .user, none, true⟩] ⟨7, .user, none, true⟩
      { id := 1, title := "t", department_id := none, assigned_by_id := some 2,
        assigned_to_id := some 7, created_by_id := 2, status := "requested",
        priority := "normal", start_date := none, due_date := none,
        is_recurring := false, recurrence := "none",
        created_at_date := none } "pending"
      = ({ id := 1, title := "t", department_id := none,
           assigned_by_id := some 2, assigned_to_id := some 7,
           created_by_id := 2, status := "requested", priority := "normal",
           start_date := none, due_date := none, is_recurring := false,
           recurrence := "none", created_at_date := none },
         httpErr 400 "Geçersiz durum güncellemesi") :=
  (c5_plain_status_update [⟨7, .user, none, true⟩] ⟨7, .user, none, true⟩ _
    "pending" (Or.inl rfl) (by decide) (Or.inl rfl)).2 (by decide)

/-! ## Claim C4 -/

/-- C4 (counterexample): the create fan-out does not exclude the actor from
the assignee notification: a creator who assigns the task to themselves is a
recipient of a notification generated by their own action. -/
theorem c4_counterexample :
    1 ∈ createTaskNotifRecipients [⟨1, .user, none, true⟩]
      ⟨1, .user, none, true⟩
      [{ id := 1, title := "t", department_id := none,
         assigned_by_id := some 1, assigned_to_id := some 1,
         created_by_id := 1, status := "pending", priority := "normal",
         start_date := none, due_date := none, is_recurring := false,
         recurrence := "none", created_at_date := none }] := by decide

/-- C4 (amended): the approve, deliver, comment and read-receipt fan-outs
build a duplicate-free recipient set and always exclude the actor; the
create fan-out excludes the actor only from its manager and admin
notifications, so a creator who assigns the task to themselves still
receives an assignee notification (and one user can receive several
notifications for the same create event). -/
theorem c4_fanout_dedup_and_self_exclusion (db : List User) (t : Task)
    (cu : User) (actorId : Nat) :
    (actorId ∉ taskEventRecipients db t actorId ∧
      (taskEventRecipients db t actorId).Nodup) ∧
    (actorId ∉ commentRecipients db t actorId ∧
      (commentRecipients db t actorId).Nodup) ∧
    (cu.id ∉ readReceiptRecipients db cu ∧
      (readReceiptRecipients db cu).Nodup) ∧
    cu.id ∉ createManagerAdminNotifIds db cu := by
  refine ⟨⟨?_, ?_⟩, ⟨?_, ?_⟩, ⟨?_, ?_⟩, ?_⟩
  · exact not_mem_filter_ne_self _ _
  · exact (taskEventRecipientPool_nodup db t).filter _
  · exact not_mem_filter_ne_self _ _
  · exact (commentRecipientPool_nodup db t).filter _
  · exact not_mem_filter_ne_self _ _
  · exact (readReceiptPool_nodup db cu).filter _
  · intro hmem
    unfold createManagerAdminNotifIds at hmem
    rcases List.mem_append.mp hmem with h | h
    · revert h
      split
      · next m _ =>
        split
        · next hne =>
          intro h
          rw [List.mem_singleton] at h
          rw [h] at hne
          simp at hne
        · intro h
          exact List.not_mem_nil _ h
      · intro h
        exact List.not_mem_nil _ h
    · obtain ⟨u, hu, hid⟩ := List.mem_map.mp h
      have := (List.mem_filter.mp hu).2
      rw [hid] at this
      simp at this

/-- Witness for C4 (amended): in a concrete three-user table the deliver
fan-out for actor 7 is exactly the creator and the admin, without the
actor. -/
theorem c4_fanout_dedup_and_self_exclusion_witness :
    7 ∉ taskEventRecipients
      [⟨1, .admin, none, true⟩, ⟨2, .user, some 3, true⟩,
       ⟨7, .user, some 3, true⟩]
      { id := 1, title := "t", department_id := some 3,
        assigned_by_id := some 2, assigned_to_id := some 7,
        created_by_id := 2, status := "in_progress", priority := "normal",
        start_date := none, due_date := none, is_recurring := false,
        recurrence := "none", created_at_date := none } 7 :=
  (c4_fanout_dedup_and_self_exclusion
    [⟨1, .admin, none, true⟩, ⟨2, .user, some 3, true⟩,
     ⟨7, .user, some 3, true⟩] _ ⟨7, .user, some 3, true⟩ 7).1.1

/-! ## Claim C3 -/

/-- C3 (counterexample): re-marking an already-read notification is NOT a
no-op.  Notification 1 of user 5 is already read with read_at
2024-01-01T00:00:00; marking it read again at 2024-02-02 overwrites read_at
with the new time and persists a fresh read-receipt notification to the
admin (id 9). -/
theorem c3_counterexample :
    mark_notification_read
      [⟨5, UserRole.user, none, true⟩, ⟨9, UserRole.admin, none, true⟩]
      ⟨[{ id := 1, to_user_id := 5, created_by_id := none, title := "T",
          message := "m", url := some "/tasks", entity_type := none,
          entity_id := none, is_read := true,
          read_at := some ⟨⟨2024, 1, 1⟩, 0⟩ }], 100⟩
      ⟨5, UserRole.user, none, true⟩ 1 ⟨⟨2024, 2, 2⟩, 100⟩
      = (⟨[{ id := 1, to_user_id := 5, created_by_id := none, title := "T",
             message := "m", url := some "/tasks", entity_type := none,
             entity_id := none, is_read := true,
             read_at := some ⟨⟨2024, 2, 2⟩, 100⟩ },
           { id := 100, to_user_id := 9, created_by_id := some 5,
             title := "Bildirim Görüntülendi",
             message := "bir bildirimi görüntüledi", url := some "/tasks",
             entity_type := none, entity_id := none, is_read := false,
             read_at := none }], 101⟩, ok200) ∧
    (some ⟨⟨2024, 1, 1⟩, 0⟩ : Option DateTime) ≠ some ⟨⟨2024, 2, 2⟩, 100⟩ := by
  exact ⟨by decide, by decide⟩

/-- C3 (amended): marking an already-read notification as read again returns
success, but it overwrites read_at with the current time and appends one new
read-receipt notification per recipient (the department manager of the user
and the admins, excluding the user); only the is_read flag is idempotent. -/
theorem c3_reread_not_noop (db : List User) (st : NotifState) (cu : User)
    (nid : Nat) (now : DateTime) (n : Notification)
    (hfind : st.notifications.find?
      (fun m => m.id == nid && m.to_user_id == cu.id) = some n)
    (_hread : n.is_read = true) :
    (mark_notification_read db st cu nid now).2 = ok200 ∧
    (mark_notification_read db st cu nid now).1.notifications.length
      = st.notifications.length + (readReceiptRecipients db cu).length ∧
    { n with is_read := true, read_at := some now }
      ∈ (mark_notification_read db st cu nid now).1.notifications := by
  have hmem : n ∈ st.notifications := List.mem_of_find?_eq_some hfind
  have hpred : (n.id == nid && n.to_user_id == cu.id) = true := by
    have h2 := List.find?_some hfind
    simpa using h2
  unfold mark_notification_read
  rw [hfind]
  refine ⟨rfl, ?_, ?_⟩
  · simp
  · apply List.mem_append.mpr
    left
    exact List.mem_map.mpr ⟨n, hmem, by simp [hpred]⟩

/-- Witness for C3 (amended) at the counterexample instance: the updated row
carrying the new read_at is stored. -/
theorem c3_reread_not_noop_witness :
    ({ id := 1, to_user_id := 5, created_by_id := none, title := "T",
       message := "m", url := some "/tasks", entity_type := none,
       entity_id := none, is_read := true,
       read_at := some ⟨⟨2024, 2, 2⟩, 100⟩ } : Notification)
      ∈ (mark_notification_read
          [⟨5, UserRole.user, none, true⟩, ⟨9, UserRole.admin, none, true⟩]
          ⟨[{ id := 1, to_user_id := 5, created_by_id := none, title := "T",
              message := "m", url := some "/tasks", entity_type := none,
              entity_id := none, is_read := true,
              read_at := some ⟨⟨2024, 1, 1⟩, 0⟩ }], 100⟩
          ⟨5, UserRole.user, none, true⟩ 1
          ⟨⟨2024, 2, 2⟩, 100⟩).1.notifications :=
  (c3_reread_not_noop
    [⟨5, UserRole.user, none, true⟩, ⟨9, UserRole.admin, none, true⟩]
    ⟨[{ id := 1, to_user_id := 5, created_by_id := none, title := "T",
        message := "m", url := some "/tasks", entity_type := none,
        entity_id := none, is_read := true,
        read_at := some ⟨⟨2024, 1, 1⟩, 0⟩ }], 100⟩
    ⟨5, UserRole.user, none, true⟩ 1 ⟨⟨2024, 2, 2⟩, 100⟩
    { id := 1, to_user_id := 5, created_by_id := none, title := "T",
      message := "m", url := some "/tasks", entity_type := none,
      entity_id := none, is_read := true,
      read_at := some ⟨⟨2024, 1, 1⟩, 0⟩ } rfl rfl).2.2

/-! ## Claim C6 -/

/-- Distinctness of the (user, year, month) unique key of two Target rows. -/
def targetKeyNe (a b : Target) : Prop :=
  ¬(a.user_id = b.user_id ∧ a.year = b.year ∧ a.month = b.month)

theorem create_target_dup_cases (db : List User) (targets : List Target)
    (cu : User) (p : TargetPayload)
    (hdup : (targets.find? (targetDupPred p)).isSome = true) :
    (create_target db targets cu p).1 = targets ∧
    ∃ code msg, code ≠ 201 ∧
      (create_target db targets cu p).2 = httpErr code msg := by
  unfold create_target
  repeat' split
  all_goals first
    | exact ⟨rfl, 403, _, by decide, rfl⟩
    | exact ⟨rfl, 400, _, by decide, rfl⟩
    | exact ⟨rfl, 404, _, by decide, rfl⟩

theorem create_target_preserves_unique (db : List User) (cu : User)
    (p : TargetPayload) (ts : List Target)
    (h : ts.Pairwise targetKeyNe) :
    (create_target db ts cu p).1.Pairwise targetKeyNe := by
  unfold create_target
  repeat' split
  all_goals (try exact h)
  rename_i hA hB hC hD hE user hfind hscope hdup
  have hnone : ts.find? (targetDupPred p) = none := by
    cases hcase : ts.find? (targetDupPred p) with
    | none => rfl
    | some x => rw [hcase] at hdup; simp at hdup
  have hall := List.find?_eq_none.mp hnone
  simp only [Bool.not_eq_true, Bool.not_eq_false] at hA hB hC
  show List.Pairwise targetKeyNe (ts ++ [newTargetOf p])
  cases hpu : p.user_id with
  | none => rw [hpu] at hA; simp [optNatTruthy] at hA
  | some k =>
  cases hpy : p.year with
  | none => rw [hpy] at hB; simp [optIntTruthy] at hB
  | some y =>
  cases hpm : p.month with
  | none => rw [hpm] at hC; simp [optIntTruthy] at hC
  | some m =>
  apply List.pairwise_append.mpr
  refine ⟨h, by simp [targetKeyNe], ?_⟩
  intro a ha b hb
  rw [List.mem_singleton] at hb
  subst hb
  intro hcon
  obtain ⟨h1, h2, h3⟩ := hcon
  apply hall a ha
  simp only [newTargetOf, hpu, hpy, hpm, Option.getD_some] at h1 h2 h3
  simp [targetDupPred, hpu, hpy, hpm]
  exact ⟨⟨h1, h2⟩, h3⟩

/-- C6: creating a Target for a (user, year, month) tuple that already has a
stored row is rejected — the stored targets are unchanged and the handler
does not report 201 — and whenever the request passes the role, field,
existence and scope guards the rejection is exactly the 400 Conflict with
the descriptive duplicate message; target creation moreover preserves
uniqueness of the (user, year, month) key, so at most one row per tuple
ever exists. -/
theorem c6_duplicate_target_conflict (db : List User) (targets : List Target)
    (cu : User) (p : TargetPayload) (tgt : Target)
    (hmem : tgt ∈ targets) (hu : p.user_id = some tgt.user_id)
    (hy : p.year = some tgt.year) (hm : p.month = some tgt.month) :
    ((create_target db targets cu p).1 = targets ∧
      (create_target db targets cu p).2.success = false ∧
      (create_target db targets cu p).2.httpStatus ≠ 201) ∧
    (∀ w, db.find? (fun v => some v.id == p.user_id) = some w →
      is_user_in_scope db cu w.id = true →
      (cu.is_admin || cu.is_department_manager) = true →
      optNatTruthy p.user_id = true → optIntTruthy p.year = true →
      optIntTruthy p.month = true → optRatTruthy p.target_amount = true →
      (create_target db targets cu p).2 =
        httpErr 400 "Bu ay için zaten hedef tanımlanmış") ∧
    (∀ (p2 : TargetPayload) (ts : List Target),
      ts.Pairwise targetKeyNe →
        (create_target db ts cu p2).1.Pairwise targetKeyNe) := by
  have hdup : (targets.find? (targetDupPred p)).isSome = true := by
    rw [List.find?_isSome]
    exact ⟨tgt, hmem, by simp [targetDupPred, hu, hy, hm]⟩
  obtain ⟨h1, code, msg, hcode, h2⟩ :=
    create_target_dup_cases db targets cu p hdup
  refine ⟨⟨h1, ?_, ?_⟩, ?_, ?_⟩
  · rw [h2]
    simp [httpErr]
  · rw [h2]
    simpa [httpErr] using hcode
  · intro w hw hscope hrole hu1 hy1 hm1 ha1
    simp [create_target, hrole, hu1, hy1, hm1, ha1, hw, hscope, hdup]
  · intro p2 ts hts
    exact create_target_preserves_unique db cu p2 ts hts

/-- Witness for C6 at the spec §8 example: a second target for
(user 5, 2024, 3) is rejected with the descriptive 400 Conflict. -/
theorem c6_duplicate_target_conflict_witness :
    (create_target [⟨5, UserRole.user, some 1, true⟩, ⟨8, UserRole.admin, none, true⟩]
      [⟨5, 2024, 3, 100⟩] ⟨8, UserRole.admin, none, true⟩
      ⟨some 5, some 2024, some 3, some 50⟩).2 =
      httpErr 400 "Bu ay için zaten hedef tanımlanmış" :=
  (c6_duplicate_target_conflict
    [⟨5, UserRole.user, some 1, true⟩, ⟨8, UserRole.admin, none, true⟩]
    [⟨5, 2024, 3, 100⟩] ⟨8, UserRole.admin, none, true⟩
    ⟨some 5, some 2024, some 3, some 50⟩ ⟨5, 2024, 3, 100⟩
    (List.mem_singleton.mpr rfl) rfl rfl rfl).2.1
    ⟨5, UserRole.user, some 1, true⟩ rfl rfl rfl rfl rfl rfl (by decide)

/-! ## Claim C10 -/

/-- C10: task creation makes no scope or department check on the assignee —
for every authenticated creator and every existing user id supplied as
assigned_to_id the creation succeeds, and the created task has status
"pending" (never "requested"), creator and assigner set to the acting
principal, and the department of the acting principal. -/
theorem c10_create_task_no_scope_check (db : List User) (cu : User)
    (p : TaskCreatePayload) (today : Date) (nid a : Nat) (u : User)
    (htitle : p.title ≠ "")
    (hids : p.assigned_to_ids = [])
    (hassg : p.assigned_to_id = some a)
    (ha : a ≠ 0)
    (hu : u ∈ db) (hua : u.id = a) :
    create_task db cu p today nid =
      ([{ id := nid, title := p.title, department_id := cu.department_id,
          assigned_by_id := some cu.id, assigned_to_id := some a,
          created_by_id := cu.id, status := "pending",
          priority := p.priority, start_date := p.start_date,
          due_date := p.due_date, is_recurring := p.is_recurring,
          recurrence := p.recurrence, created_at_date := some today }],
        ⟨201, true, none⟩) := by
  have hopt : optNatTruthy (some a) = true := by simp [optNatTruthy, ha]
  have hfindSome : (db.find? (fun v => some v.id == some a)).isSome := by
    rw [List.find?_isSome]
    exact ⟨u, hu, by simp [hua]⟩
  obtain ⟨w, hw⟩ := Option.isSome_iff_exists.mp hfindSome
  have hbuild : build_and_persist_task db cu p nid today (some a) =
      .ok { id := nid, title := p.title, department_id := cu.department_id,
            assigned_by_id := some cu.id, assigned_to_id := some a,
            created_by_id := cu.id, status := "pending",
            priority := p.priority, start_date := p.start_date,
            due_date := p.due_date, is_recurring := p.is_recurring,
            recurrence := p.recurrence, created_at_date := some today } := by
    simp only [build_and_persist_task, hopt, if_true, hw]
  have hloop : createTasksLoop db cu p today [some a] nid =
      .ok [{ id := nid, title := p.title, department_id := cu.department_id,
             assigned_by_id := some cu.id, assigned_to_id := some a,
             created_by_id := cu.id, status := "pending",
             priority := p.priority, start_date := p.start_date,
             due_date := p.due_date, is_recurring := p.is_recurring,
             recurrence := p.recurrence,
             created_at_date := some today }] := by
    simp only [createTasksLoop, hbuild]
  simp only [create_task, beq_eq_false_iff_ne.mpr htitle, Bool.false_eq_true,
    if_false, hids, hassg, bne_self_eq_false]
  rw [hloop]

/-- Witness for C10: user 1 (plain, department 2) successfully assigns a task
to user 3 of an unrelated department, with status "pending" and the
department of the creator. -/
theorem c10_create_task_no_scope_check_witness :
    create_task
      [⟨1, UserRole.user, some 2, true⟩, ⟨3, UserRole.user, some 9, true⟩]
      ⟨1, UserRole.user, some 2, true⟩
      { title := "T", assigned_to_id := some 3, assigned_to_ids := [],
        due_date := none, start_date := none, priority := "normal",
        is_recurring := false, recurrence := "none" }
      ⟨2024, 5, 5⟩ 41 =
      ([{ id := 41, title := "T", department_id := some 2,
          assigned_by_id := some 1, assigned_to_id := some 3,
          created_by_id := 1, status := "pending", priority := "normal",
          start_date := none, due_date := none, is_recurring := false,
          recurrence := "none", created_at_date := some ⟨2024, 5, 5⟩ }],
        ⟨201, true, none⟩) :=
  c10_create_task_no_scope_check
    [⟨1, UserRole.user, some 2, true⟩, ⟨3, UserRole.user, some 9, true⟩]
    ⟨1, UserRole.user, some 2, true⟩
    { title := "T", assigned_to_id := some 3, assigned_to_ids := [],
      due_date := none, start_date := none, priority := "normal",
      is_recurring := false, recurrence := "none" }
    ⟨2024, 5, 5⟩ 41 3 ⟨3, UserRole.user, some 9, true⟩
    (by decide) rfl rfl (by decide) (by decide) rfl

end SalesDashboard
